import Mathlib

/-
Verification of the easyRFQ backend core: token service (helpers/tokens.js),
auth middleware guards, the partial-update SQL builder (helpers/sql.js), and
selected model-layer operations (models/user.js, models/rfq.js).

JavaScript values relevant to these functions are embedded as `JSVal`
(strings, integer numbers, booleans, null, undefined), with JS truthiness
made explicit.  Express middleware is embedded as a pure function from the
request material it reads to the pair (resulting identity slot, error passed
to `next`).  Fallible model methods return `Except AppError`.  The external
`jsonwebtoken` library is embedded abstractly: a signed token is its payload
together with the secret it was signed with, and verification succeeds
exactly when the secrets match, which captures sign/verify round-tripping
and signature rejection.
-/

/-- A JavaScript value as used by the functions under study: string, integer
number, boolean, null, or undefined. -/
inductive JSVal where
  | str : String → JSVal
  | num : Int → JSVal
  | bool : Bool → JSVal
  | null : JSVal
  | undefined : JSVal
deriving DecidableEq, Repr

/-- JavaScript truthiness for the embedded values: `false`, `0`, the empty
string, `null` and `undefined` are falsy; everything else is truthy. -/
def truthy : JSVal → Bool
  | JSVal.str s => s ≠ ""
  | JSVal.num n => n ≠ 0
  | JSVal.bool b => b
  | JSVal.null => false
  | JSVal.undefined => false

/-- The error kinds surfaced by this core, mirroring expressError.js:
`BadRequestError` and `UnauthorizedError`, each carrying a message. -/
inductive AppError where
  | badRequest : String → AppError
  | unauthorized : String → AppError
deriving DecidableEq, Repr

/-- The process-wide signing secret from config.js.  Its concrete value is
irrelevant to every property proved here; all signing and verification in
this development goes through this single constant, as in the code. -/
def SECRET_KEY : String := "secret-dev"

/-- The decoded claim of a token produced by `createToken`: the payload
fields `id`, `isAdmin`, `companyId` plus the issuance timestamp `iat` that
`jwt.sign` adds automatically. -/
structure TokenPayload where
  id : JSVal
  isAdmin : JSVal
  companyId : JSVal
  iat : Nat
deriving DecidableEq, Repr

/-- Abstract embedding of a token produced by `jwt.sign`: the payload
together with the secret used to sign it. -/
structure SignedToken where
  payload : TokenPayload
  secret : String
deriving DecidableEq, Repr

/-- Embedding of `jwt.sign(payload, secret)`. -/
def jwtSign (payload : TokenPayload) (secret : String) : SignedToken :=
  ⟨payload, secret⟩

/-- Embedding of `jwt.verify(token, secret)`: succeeds with the decoded
payload exactly when the token was signed with the same secret, and fails
(returns `none`, standing for a thrown verification error) otherwise. -/
def jwtVerify (token : SignedToken) (secret : String) : Option TokenPayload :=
  if token.secret = secret then some token.payload else none

/-- A user record as passed to `createToken` in helpers/tokens.js: the
fields the function reads (`id`, `isAdmin`, `companyId`), each a JS value,
with `JSVal.undefined` standing for an absent property. -/
structure JsUser where
  id : JSVal
  isAdmin : JSVal
  companyId : JSVal
deriving DecidableEq, Repr

/-- Embedding of `createToken(user)` from helpers/tokens.js.  The function
first mutates its argument, setting `user.isAdmin = false` when that
property is `undefined`; it then signs the payload
`\x7b id, isAdmin: user.isAdmin || false, companyId \x7d` with `SECRET_KEY`.
The wall-clock issuance time that `jwt.sign` stamps into the token is passed
explicitly as `now`; the result is the signed token together with the user
record as the caller observes it after the call (JS objects are passed by
reference, so the mutation is visible to the caller). -/
def createToken (user : JsUser) (now : Nat) : SignedToken × JsUser :=
  let user := if user.isAdmin = JSVal.undefined
    then { user with isAdmin := JSVal.bool false } else user
  let payload : TokenPayload :=
    { id := user.id
      isAdmin := if truthy user.isAdmin then user.isAdmin else JSVal.bool false
      companyId := user.companyId
      iat := now }
  (jwtSign payload SECRET_KEY, user)

/-- The material of an `Authorization: Bearer <token>` header as the
middleware sees it: either a structurally well-formed token (which may still
fail signature verification) or a malformed string that no verification
accepts. -/
inductive RawToken where
  | wellFormed : SignedToken → RawToken
  | malformed : RawToken
deriving DecidableEq, Repr

/-- Verification of raw header material: a malformed token always fails;
a well-formed token is checked against the secret. -/
def jwtVerifyRaw (raw : RawToken) (secret : String) : Option TokenPayload :=
  match raw with
  | RawToken.wellFormed t => jwtVerify t secret
  | RawToken.malformed => none

/-- Modelled from the spec: the middleware source file middleware/auth.js is
not in the repository snapshot; only its test suite is.  Per the spec, the
middleware reads the optional bearer header, tries verification against the
shared secret when a token is present, stores the decoded claim in the
request-scoped identity slot on success, and on absence or any verification
failure leaves the slot empty; it always calls onward with no error.  The
result is (identity slot after the call, error passed to next). -/
def authenticateJWT (header : Option RawToken) :
    Option TokenPayload × Option AppError :=
  match header with
  | none => (none, none)
  | some raw =>
    match jwtVerifyRaw raw SECRET_KEY with
    | some payload => (some payload, none)
    | none => (none, none)

/-- Modelled from the spec: middleware/auth.js is not in the repository
snapshot; only its test suite is.  `ensureLoggedIn` passes (calls onward
with no error) when an identity is present in the request-scoped slot and
signals an Unauthorized failure otherwise. -/
def ensureLoggedIn (locals : Option TokenPayload) : Option AppError :=
  match locals with
  | some _ => none
  | none => some (AppError.unauthorized "Unauthorized")

/-- Modelled from the spec: middleware/auth.js is not in the repository
snapshot; only its test suite is.  `ensureAdmin` passes when an identity is
present and its `isAdmin` flag is `true`, and signals an Unauthorized
failure in every other case. -/
def ensureAdmin (locals : Option TokenPayload) : Option AppError :=
  match locals with
  | some u =>
    if u.isAdmin = JSVal.bool true then none
    else some (AppError.unauthorized "Unauthorized")
  | none => some (AppError.unauthorized "Unauthorized")

/-- Modelled from the spec: middleware/auth.js is not in the repository
snapshot; only its test suite is.  `ensureCorrectUserOrAdmin` passes when an
identity is present and either its `isAdmin` flag is `true` or its user
identifier matches the resource owner identifier from the route parameter,
and signals an Unauthorized failure otherwise. -/
def ensureCorrectUserOrAdmin (locals : Option TokenPayload) (paramId : JSVal) :
    Option AppError :=
  match locals with
  | some u =>
    if u.isAdmin = JSVal.bool true ∨ u.id = paramId then none
    else some (AppError.unauthorized "Unauthorized")
  | none => some (AppError.unauthorized "Unauthorized")

/-- The column-name resolution `jsToSql[colName] || colName` in
helpers/sql.js: a JS object lookup returning `undefined` for an absent key,
with `||` falling back to the field name itself when the looked-up value is
falsy (absent, or the empty string). -/
def resolveColumn (jsToSql : List (String × String)) (colName : String) : String :=
  match jsToSql.lookup colName with
  | some column => if column = "" then colName else column
  | none => colName

/-- One set-clause fragment from helpers/sql.js:
the string produced for the key at 0-based position `idx`, namely
the resolved column name in double quotes, `=`, and positional
parameter number `idx + 1`. -/
def setFragment (jsToSql : List (String × String)) (idx : Nat) (colName : String) : String :=
  "\"" ++ resolveColumn jsToSql colName ++ "\"=$" ++ toString (idx + 1)

/-- The indexed map `keys.map((colName, idx) => ...)` of helpers/sql.js,
written as structural recursion carrying the running index. -/
def setClauseFragmentsFrom (jsToSql : List (String × String)) :
    Nat → List String → List String
  | _, [] => []
  | i, k :: ks => setFragment jsToSql i k :: setClauseFragmentsFrom jsToSql (i + 1) ks

/-- All set-clause fragments of a key list, indices starting at 0
(so positional parameters start at `$1`). -/
def setClauseFragments (jsToSql : List (String × String)) (keys : List String) :
    List String :=
  setClauseFragmentsFrom jsToSql 0 keys

/-- The result of `sqlForPartialUpdate`: the joined SET clause and the
ordered values sequence. -/
structure SqlUpdate where
  setCols : String
  values : List JSVal
deriving DecidableEq, Repr

/-- Embedding of `sqlForPartialUpdate(dataToUpdate, jsToSql)` from
helpers/sql.js.  `dataToUpdate` is the fields-to-update object in its
insertion order (`Object.keys` / `Object.values` agree on that order for
the string keys used here); an empty object is rejected with
`BadRequestError("No data")`; otherwise each key becomes a fragment
`"column"=$N` with `N` its 1-based position and the values are returned in
the same order. -/
def sqlForPartialUpdate (dataToUpdate : List (String × JSVal))
    (jsToSql : List (String × String)) : Except AppError SqlUpdate :=
  let keys := dataToUpdate.map Prod.fst
  if keys.length = 0 then Except.error (AppError.badRequest "No data")
  else
    let cols := setClauseFragments jsToSql keys
    Except.ok ⟨String.intercalate ", " cols, dataToUpdate.map Prod.snd⟩

/-- A row of the `users` table as selected by `User.authenticate` in
models/user.js: `id, email, password, fullName, phone, isAdmin, companyId`
(the password column holds the bcrypt hash). -/
structure UserRow where
  id : JSVal
  email : String
  password : String
  fullName : JSVal
  phone : JSVal
  isAdmin : JSVal
  companyId : JSVal
deriving DecidableEq, Repr

/-- The user record `User.authenticate` returns on success, after
`delete user.password`: the same fields with the password field removed. -/
structure AuthedUser where
  id : JSVal
  email : String
  fullName : JSVal
  phone : JSVal
  isAdmin : JSVal
  companyId : JSVal
deriving DecidableEq, Repr

/-- The effect of `delete user.password` followed by returning the record:
every field except `password` is carried over unchanged. -/
def stripPassword (u : UserRow) : AuthedUser :=
  ⟨u.id, u.email, u.fullName, u.phone, u.isAdmin, u.companyId⟩

/-- Embedding of `User.authenticate(email, password)` from models/user.js.
The database `SELECT ... WHERE email = $1` is embedded as the function
`lookup` from email to the (optional) matching row, and
`bcrypt.compare(password, user.password)` as the boolean function
`compare`.  When a row is found and the comparison yields `true`, the
password field is deleted and the record returned; in every other case the
function throws `UnauthorizedError("Invalid email/password")`. -/
def User.authenticate (lookup : String → Option UserRow)
    (compare : String → String → Bool) (email password : String) :
    Except AppError AuthedUser :=
  match lookup email with
  | some user =>
    if compare password user.password = true then Except.ok (stripPassword user)
    else Except.error (AppError.unauthorized "Invalid email/password")
  | none => Except.error (AppError.unauthorized "Invalid email/password")

/-- The argument object of `Rfq.createRfqItem` in models/rfq.js.  The
`quantity` field is the numeric quantity from the request; `company_id` is
kept as a JS value because the code tests its truthiness. -/
structure RfqItemInput where
  rfq_id : JSVal
  company_id : JSVal
  item_code : JSVal
  quantity : Int
  item_description : JSVal
  item_cost : JSVal
deriving DecidableEq, Repr

/-- The row the `INSERT INTO rfq_items ... RETURNING ...` of
`Rfq.createRfqItem` produces for the given input (the generated `id` is
owned by the database and not embedded). -/
structure RfqItemRow where
  rfq_id : JSVal
  company_id : JSVal
  item_code : JSVal
  quantity : Int
  item_description : JSVal
  item_cost : JSVal
deriving DecidableEq, Repr

/-- Embedding of `Rfq.createRfqItem(data)` from models/rfq.js: it throws
`BadRequestError("Company ID is required.")` when `company_id` is falsy,
then `BadRequestError("Quantity must be greater than 0.")` when
`quantity <= 0`, and only otherwise performs the insert; a returned `.ok`
row stands for the insert being attempted. -/
def Rfq.createRfqItem (data : RfqItemInput) : Except AppError RfqItemRow :=
  if truthy data.company_id = false then
    Except.error (AppError.badRequest "Company ID is required.")
  else if data.quantity ≤ 0 then
    Except.error (AppError.badRequest "Quantity must be greater than 0.")
  else
    Except.ok ⟨data.rfq_id, data.company_id, data.item_code, data.quantity,
      data.item_description, data.item_cost⟩

theorem setClauseFragmentsFrom_get (jsToSql : List (String × String))
    (ks : List String) : ∀ i n, n < ks.length →
    (setClauseFragmentsFrom jsToSql i ks).get? n =
      some (setFragment jsToSql (i + n) (ks.getD n "")) := by
  induction ks with
  | nil => intro i n h; simp at h
  | cons k ks ih =>
    intro i n h
    cases n with
    | zero => simp [setClauseFragmentsFrom]
    | succ m =>
      have hm : m < ks.length := by simpa using h
      have := ih (i + 1) m hm
      simp only [setClauseFragmentsFrom, List.get?, List.getD, List.get?_cons_succ]
      rw [this]
      congr 2
      omega

theorem createToken_iat (user : JsUser) (now : Nat) :
    (createToken user now).1.payload.iat = now := rfl

theorem createToken_secret (user : JsUser) (now : Nat) :
    (createToken user now).1.secret = SECRET_KEY := rfl

/-- Claim C1: for every inbound request, `authenticateJWT` never signals an
error: when the Authorization header is absent, or the bearer token fails
verification (bad signature, malformed, expired), the identity slot is left
empty and control passes onward with no error, so a verification failure is
indistinguishable from no token at all. -/
theorem authenticateJWT_silent (header : Option RawToken) :
    (authenticateJWT header).2 = none ∧
    (header = none → (authenticateJWT header).1 = none) ∧
    (∀ raw, header = some raw → jwtVerifyRaw raw SECRET_KEY = none →
      (authenticateJWT header).1 = none) := by
  cases header with
  | none => simp [authenticateJWT]
  | some raw =>
    cases h : jwtVerifyRaw raw SECRET_KEY <;>
      simp [authenticateJWT, h]

theorem authenticateJWT_silent_witness :
    (authenticateJWT (some RawToken.malformed)).2 = none ∧
    (authenticateJWT (some RawToken.malformed)).1 = none := by
  obtain ⟨h1, _, h3⟩ := authenticateJWT_silent (some RawToken.malformed)
  exact ⟨h1, h3 RawToken.malformed rfl rfl⟩

/-- Claim C2: for every user record passed to `createToken`, when `isAdmin`
is absent or falsy the signed token verifies to a claim with
`isAdmin === false`, and when `isAdmin` is explicitly `true` or `false` the
verified claim's `isAdmin` equals that value exactly. -/
theorem createToken_isAdmin_roundtrip (user : JsUser) (now : Nat) :
    ∃ p, jwtVerify (createToken user now).1 SECRET_KEY = some p ∧
      ((user.isAdmin = JSVal.undefined ∨ truthy user.isAdmin = false) →
        p.isAdmin = JSVal.bool false) ∧
      (∀ b : Bool, user.isAdmin = JSVal.bool b → p.isAdmin = JSVal.bool b) := by
  refine ⟨(createToken user now).1.payload, ?_, ?_, ?_⟩
  · simp [jwtVerify, createToken_secret]
  · intro h
    rcases h with h | h
    · simp [createToken, jwtSign, h, truthy]
    · rcases hu : user.isAdmin <;>
        simp [hu, truthy] at h <;>
        simp [createToken, jwtSign, hu, truthy, h]
  · intro b hb
    cases b <;> simp [createToken, jwtSign, hb, truthy]

theorem createToken_isAdmin_roundtrip_witness :
    ∃ p, jwtVerify (createToken ⟨JSVal.num 1, JSVal.undefined, JSVal.null⟩ 7).1
        SECRET_KEY = some p ∧ p.isAdmin = JSVal.bool false := by
  obtain ⟨p, hp, h1, _⟩ :=
    createToken_isAdmin_roundtrip ⟨JSVal.num 1, JSVal.undefined, JSVal.null⟩ 7
  exact ⟨p, hp, h1 (Or.inl rfl)⟩

/-- Claim C3: `ensureAdmin` calls onward with no error exactly when an
identity is present in the request-scoped slot and its `isAdmin` flag is
`true`; in every other case it signals an Unauthorized failure. -/
theorem ensureAdmin_pass_iff (locals : Option TokenPayload) :
    (ensureAdmin locals = none ↔
      ∃ u, locals = some u ∧ u.isAdmin = JSVal.bool true) ∧
    (ensureAdmin locals ≠ none →
      ensureAdmin locals = some (AppError.unauthorized "Unauthorized")) := by
  cases locals with
  | none => simp [ensureAdmin]
  | some u =>
    by_cases h : u.isAdmin = JSVal.bool true <;> simp [ensureAdmin, h]

theorem ensureAdmin_pass_iff_witness :
    ensureAdmin none = some (AppError.unauthorized "Unauthorized") := by
  obtain ⟨_, h2⟩ := ensureAdmin_pass_iff none
  exact h2 (by simp [ensureAdmin])

/-- Claim C4: `ensureLoggedIn` passes (calls onward with no error) if and
only if an identity is present, and every failure of any guard predicate
(`ensureLoggedIn`, `ensureAdmin`, `ensureCorrectUserOrAdmin`) produces the
same Unauthorized error, with no distinction between not-logged-in and
logged-in-but-forbidden. -/
theorem ensureLoggedIn_iff_uniform_errors (locals : Option TokenPayload)
    (paramId : JSVal) :
    (ensureLoggedIn locals = none ↔ locals.isSome = true) ∧
    (∀ e, ensureLoggedIn locals = some e ∨ ensureAdmin locals = some e ∨
        ensureCorrectUserOrAdmin locals paramId = some e →
      e = AppError.unauthorized "Unauthorized") := by
  cases locals with
  | none =>
    refine ⟨by simp [ensureLoggedIn], ?_⟩
    intro e h
    rcases h with h | h | h <;>
      simp [ensureLoggedIn, ensureAdmin, ensureCorrectUserOrAdmin] at h <;>
      exact h.symm
  | some u =>
    refine ⟨by simp [ensureLoggedIn], ?_⟩
    intro e h
    rcases h with h | h | h
    · simp [ensureLoggedIn] at h
    · by_cases hu : u.isAdmin = JSVal.bool true <;>
        simp [ensureAdmin, hu] at h
      exact h.symm
    · by_cases hu : u.isAdmin = JSVal.bool true ∨ u.id = paramId <;>
        simp [ensureCorrectUserOrAdmin, hu] at h
      exact h.symm

theorem ensureLoggedIn_iff_uniform_errors_witness :
    ensureLoggedIn none ≠ none ∧
    (AppError.unauthorized "Unauthorized" : AppError) =
      AppError.unauthorized "Unauthorized" := by
  obtain ⟨h1, h2⟩ := ensureLoggedIn_iff_uniform_errors none JSVal.null
  refine ⟨?_, h2 (AppError.unauthorized "Unauthorized")
    (Or.inl (by simp [ensureLoggedIn]))⟩
  intro hc
  have := h1.mp hc
  simp at this

/-- Claim C5: `sqlForPartialUpdate` signals a Bad-Request failure exactly
when the fields-to-update mapping has zero entries, and this is the only
validation performed: every non-empty mapping returns a result without
error, regardless of value types or column-name legality. -/
theorem sqlForPartialUpdate_empty_iff (data : List (String × JSVal))
    (jsToSql : List (String × String)) :
    (sqlForPartialUpdate data jsToSql =
      Except.error (AppError.badRequest "No data") ↔ data = []) ∧
    (data ≠ [] → ∃ r, sqlForPartialUpdate data jsToSql = Except.ok r) ∧
    (∀ e, sqlForPartialUpdate data jsToSql = Except.error e → data = []) := by
  cases data <;> simp [sqlForPartialUpdate]

theorem sqlForPartialUpdate_empty_iff_witness :
    (sqlForPartialUpdate [] [] =
      Except.error (AppError.badRequest "No data")) ∧
    (∃ r, sqlForPartialUpdate [("a", JSVal.num 1)] [] = Except.ok r) := by
  refine ⟨(sqlForPartialUpdate_empty_iff [] []).1.mpr rfl, ?_⟩
  exact (sqlForPartialUpdate_empty_iff [("a", JSVal.num 1)] []).2.1 (by simp)

/-- Claim C6: for every non-empty fields-to-update mapping and every name
map, `sqlForPartialUpdate` iterates the fields in insertion order, the Nth
set-clause fragment uses positional parameter number N (starting at 1) and
assigns the Nth entry of the returned values sequence, fields absent from
the name map use their own name as the column; in particular the
firstName/age example yields fragments assigning first_name to parameter 1
and age to parameter 2 with values Aliya and 32. -/
theorem sqlForPartialUpdate_order (data : List (String × JSVal))
    (jsToSql : List (String × String)) (h : data ≠ []) :
    (sqlForPartialUpdate data jsToSql = Except.ok
      ⟨String.intercalate ", " (setClauseFragments jsToSql (data.map Prod.fst)),
        data.map Prod.snd⟩) ∧
    (∀ n, n < data.length →
      (setClauseFragments jsToSql (data.map Prod.fst)).get? n =
        some ("\"" ++ resolveColumn jsToSql ((data.map Prod.fst).getD n "") ++
          "\"=$" ++ toString (n + 1))) ∧
    (∀ c, jsToSql.lookup c = none → resolveColumn jsToSql c = c) ∧
    (sqlForPartialUpdate
        [("firstName", JSVal.str "Aliya"), ("age", JSVal.num 32)]
        [("firstName", "first_name")] =
      Except.ok ⟨"\"first_name\"=$1, \"age\"=$2",
        [JSVal.str "Aliya", JSVal.num 32]⟩) := by
  refine ⟨?_, ?_, ?_, ?_⟩
  · cases data with
    | nil => exact absurd rfl h
    | cons p ps => simp [sqlForPartialUpdate]
  · intro n hn
    have := setClauseFragmentsFrom_get jsToSql (data.map Prod.fst) 0 n
      (by simpa using hn)
    simpa [setClauseFragments, setFragment] using this
  · intro c hc
    simp [resolveColumn, hc]
  · rfl

theorem sqlForPartialUpdate_order_witness :
    sqlForPartialUpdate
        [("firstName", JSVal.str "Aliya"), ("age", JSVal.num 32)]
        [("firstName", "first_name")] =
      Except.ok ⟨"\"first_name\"=$1, \"age\"=$2",
        [JSVal.str "Aliya", JSVal.num 32]⟩ :=
  (sqlForPartialUpdate_order
    [("firstName", JSVal.str "Aliya"), ("age", JSVal.num 32)]
    [("firstName", "first_name")] (by simp)).2.2.2

/-- Claim C7: two calls to `createToken` with an identical user payload at
different times produce different signed tokens (the issuance timestamp
varies), yet both tokens verify successfully against the same process-wide
secret. -/
theorem createToken_distinct_times (user : JsUser) (t1 t2 : Nat)
    (h : t1 ≠ t2) :
    (createToken user t1).1 ≠ (createToken user t2).1 ∧
    (jwtVerify (createToken user t1).1 SECRET_KEY).isSome = true ∧
    (jwtVerify (createToken user t2).1 SECRET_KEY).isSome = true := by
  refine ⟨?_, ?_, ?_⟩
  · intro hc
    apply h
    have := congrArg (fun t => t.payload.iat) hc
    simpa [createToken_iat] using this
  · simp [jwtVerify, createToken_secret]
  · simp [jwtVerify, createToken_secret]

theorem createToken_distinct_times_witness :
    (createToken ⟨JSVal.num 1, JSVal.bool false, JSVal.null⟩ 0).1 ≠
      (createToken ⟨JSVal.num 1, JSVal.bool false, JSVal.null⟩ 1).1 :=
  (createToken_distinct_times ⟨JSVal.num 1, JSVal.bool false, JSVal.null⟩ 0 1
    (by decide)).1

/-- Claim C8 fails on the code: `createToken` writes `isAdmin = false` onto
the caller-supplied record when that property is `undefined`, so the
argument is not left unchanged.  Concretely, for the user with `id = 1` and
`isAdmin` undefined, the record after the call differs from the record
passed in. -/
theorem createToken_mutation_counterexample :
    (createToken ⟨JSVal.num 1, JSVal.undefined, JSVal.null⟩ 0).2 ≠
      ⟨JSVal.num 1, JSVal.undefined, JSVal.null⟩ := by
  intro hc
  have := congrArg JsUser.isAdmin hc
  simp [createToken] at this

/-- Claim C8 (amended): `createToken`'s only effect on the caller-supplied
user record is the isAdmin default: when the record's `isAdmin` is
`undefined` the call sets that field to `false` on the caller's record, and
when `isAdmin` is defined the record is left entirely unchanged. -/
theorem createToken_frame (user : JsUser) (now : Nat) :
    (user.isAdmin ≠ JSVal.undefined → (createToken user now).2 = user) ∧
    (user.isAdmin = JSVal.undefined →
      (createToken user now).2 = { user with isAdmin := JSVal.bool false }) := by
  constructor <;> intro h <;> simp [createToken, h]

theorem createToken_frame_witness :
    (createToken ⟨JSVal.num 1, JSVal.bool true, JSVal.null⟩ 0).2 =
      ⟨JSVal.num 1, JSVal.bool true, JSVal.null⟩ :=
  (createToken_frame ⟨JSVal.num 1, JSVal.bool true, JSVal.null⟩ 0).1
    (by decide)

/-- Claim C9: `User.authenticate` signals the same Unauthorized error with
the same message "Invalid email/password" both when no user row exists for
the email and when the password comparison fails; on success the returned
record is the row with the password field removed. -/
theorem user_authenticate_uniform (lookup : String → Option UserRow)
    (compare : String → String → Bool) (email password : String) :
    (lookup email = none →
      User.authenticate lookup compare email password =
        Except.error (AppError.unauthorized "Invalid email/password")) ∧
    (∀ u, lookup email = some u → compare password u.password = false →
      User.authenticate lookup compare email password =
        Except.error (AppError.unauthorized "Invalid email/password")) ∧
    (∀ u, lookup email = some u → compare password u.password = true →
      User.authenticate lookup compare email password =
        Except.ok (stripPassword u)) := by
  refine ⟨?_, ?_, ?_⟩
  · intro h
    simp [User.authenticate, h]
  · intro u hu hc
    simp [User.authenticate, hu, hc]
  · intro u hu hc
    simp [User.authenticate, hu, hc]

theorem user_authenticate_uniform_witness :
    (User.authenticate (fun _ => none) (fun p h => p = h) "a@b.c" "pw" =
      Except.error (AppError.unauthorized "Invalid email/password")) ∧
    (User.authenticate
        (fun _ => some ⟨JSVal.num 1, "a@b.c", "pw", JSVal.null, JSVal.null,
          JSVal.bool false, JSVal.null⟩)
        (fun p h => p = h) "a@b.c" "pw" =
      Except.ok ⟨JSVal.num 1, "a@b.c", JSVal.null, JSVal.null,
        JSVal.bool false, JSVal.null⟩) := by
  constructor
  · exact (user_authenticate_uniform (fun _ => none) (fun p h => p = h)
      "a@b.c" "pw").1 rfl
  · exact (user_authenticate_uniform
      (fun _ => some ⟨JSVal.num 1, "a@b.c", "pw", JSVal.null, JSVal.null,
        JSVal.bool false, JSVal.null⟩)
      (fun p h => p = h) "a@b.c" "pw").2.2
      ⟨JSVal.num 1, "a@b.c", "pw", JSVal.null, JSVal.null,
        JSVal.bool false, JSVal.null⟩ rfl (by decide)

/-- Claim C10: `Rfq.createRfqItem` signals a Bad-Request failure, before
attempting any insert, when `company_id` is absent/falsy or when `quantity`
is less than or equal to 0; otherwise it proceeds to insert the RFQ item. -/
theorem createRfqItem_validates (d : RfqItemInput) :
    (truthy d.company_id = false →
      Rfq.createRfqItem d =
        Except.error (AppError.badRequest "Company ID is required.")) ∧
    (truthy d.company_id = true → d.quantity ≤ 0 →
      Rfq.createRfqItem d =
        Except.error (AppError.badRequest "Quantity must be greater than 0.")) ∧
    (truthy d.company_id = true → 0 < d.quantity →
      Rfq.createRfqItem d = Except.ok ⟨d.rfq_id, d.company_id, d.item_code,
        d.quantity, d.item_description, d.item_cost⟩) := by
  refine ⟨?_, ?_, ?_⟩
  · intro h
    simp [Rfq.createRfqItem, h]
  · intro h1 h2
    simp [Rfq.createRfqItem, h1, h2]
  · intro h1 h2
    simp [Rfq.createRfqItem, h1, not_le.mpr h2]

theorem createRfqItem_validates_witness :
    (Rfq.createRfqItem ⟨JSVal.num 1, JSVal.null, JSVal.str "A", 5,
        JSVal.null, JSVal.null⟩ =
      Except.error (AppError.badRequest "Company ID is required.")) ∧
    (Rfq.createRfqItem ⟨JSVal.num 1, JSVal.num 2, JSVal.str "A", 0,
        JSVal.null, JSVal.null⟩ =
      Except.error (AppError.badRequest "Quantity must be greater than 0.")) ∧
    (Rfq.createRfqItem ⟨JSVal.num 1, JSVal.num 2, JSVal.str "A", 5,
        JSVal.null, JSVal.null⟩ =
      Except.ok ⟨JSVal.num 1, JSVal.num 2, JSVal.str "A", 5,
        JSVal.null, JSVal.null⟩) := by
  refine ⟨?_, ?_, ?_⟩
  · exact (createRfqItem_validates ⟨JSVal.num 1, JSVal.null, JSVal.str "A", 5,
      JSVal.null, JSVal.null⟩).1 (by decide)
  · exact (createRfqItem_validates ⟨JSVal.num 1, JSVal.num 2, JSVal.str "A", 0,
      JSVal.null, JSVal.null⟩).2.1 (by decide) (by decide)
  · exact (createRfqItem_validates ⟨JSVal.num 1, JSVal.num 2, JSVal.str "A", 5,
      JSVal.null, JSVal.null⟩).2.2 (by decide) (by decide)
